import Mathlib

/-!
Verification of the JSVV siren-protocol engine described in spec.md.

The repository ships the CLI driver `jsvv_simulator.py` together with the
package interface `src/jsvv/__init__.py`; the library modules `jsvv.client`
(frame codec, error taxonomy) and `jsvv.simulator` (dedup window, scenario
registry, simulation harness) that the driver imports are not part of the
snapshot, so those parts are modelled from the spec, as the doc comments of
the corresponding definitions state.  Frames are modelled as byte lists
(`List Nat`, one entry per byte); the CLI driver is embedded from the
Python source.
-/

namespace JSVV

/-- Byte list of an ASCII string literal (one `Nat` per character). -/
def strBytes (s : String) : List Nat := s.data.map Char.toNat

/-- The field delimiter of the wire format, ASCII semicolon. -/
def SEMI : Nat := 59

/-- The parameter separator inside the parameter field, ASCII comma. -/
def COMMA : Nat := 44

/-- Splits a byte list on a delimiter; always returns at least one field. -/
def splitSep (d : Nat) : List Nat → List (List Nat)
  | [] => [[]]
  | x :: xs =>
    match splitSep d xs with
    | [] => [[]]
    | f :: fs => if x = d then [] :: f :: fs else (x :: f) :: fs

/-- Joins fields with a delimiter; the inverse of `splitSep`. -/
def joinSep (d : Nat) : List (List Nat) → List Nat
  | [] => []
  | [f] => f
  | f :: fs => f ++ d :: joinSep d fs

/-- Decimal digit bytes of a natural number, with explicit recursion fuel. -/
def natToBytesAux : Nat → Nat → List Nat
  | 0, _ => []
  | fuel + 1, n =>
    if n < 10 then [48 + n]
    else natToBytesAux fuel (n / 10) ++ [48 + n % 10]

/-- Decimal digit bytes of a natural number (ASCII `0`..`9`). -/
def natToBytes (n : Nat) : List Nat := natToBytesAux (n + 1) n

/-- Whether a byte is an ASCII decimal digit. -/
def isDigitB (b : Nat) : Bool := 48 ≤ b && b ≤ 57

/-- Reads a nonempty all-digit byte list as a natural number. -/
def parseNat (bs : List Nat) : Option Nat :=
  if bs = [] then none
  else if bs.all isDigitB then
    some (bs.foldl (fun a b => a * 10 + (b - 48)) 0)
  else none

instance {ε α : Type} [DecidableEq ε] [DecidableEq α] : DecidableEq (Except ε α) :=
  fun x y =>
    match x, y with
    | .error a, .error b =>
      if h : a = b then isTrue (by rw [h])
      else isFalse (fun hc => h (Except.error.inj hc))
    | .ok a, .ok b =>
      if h : a = b then isTrue (by rw [h])
      else isFalse (fun hc => h (Except.ok.inj hc))
    | .error _, .ok _ => isFalse (fun hc => Except.noConfusion hc)
    | .ok _, .error _ => isFalse (fun hc => Except.noConfusion hc)

/-- Modelled from the spec: the error taxonomy of §7 (`JSVVError` is exposed
by the missing `jsvv.client` module; only its name appears in src). -/
inductive JSVVError where
  | invalidCommand
  | malformedFrame
  | checksumMismatch
  | unknownScenario
  deriving DecidableEq, Repr

/-- Human-readable message of an error, as formatted into CLI diagnostics. -/
def JSVVError.message : JSVVError → String
  | .invalidCommand => "invalid command"
  | .malformedFrame => "malformed frame"
  | .checksumMismatch => "checksum mismatch"
  | .unknownScenario => "unknown scenario"

/-- Modelled from the spec: the protocol-defined priority levels (§4.1 says
priority takes a protocol-defined default level when not overridden). -/
inductive Priority where
  | low
  | normal
  | high
  deriving DecidableEq, Repr

/-- Wire rendering of a priority level. -/
def Priority.bytes : Priority → List Nat
  | .low => strBytes "LOW"
  | .normal => strBytes "NORMAL"
  | .high => strBytes "HIGH"

/-- The protocol-defined default priority level. -/
def defaultPriority : Priority := Priority.normal

/-- Reads a priority field back from its wire rendering. -/
def parsePriority (bs : List Nat) : Option Priority :=
  if bs = Priority.bytes .low then some .low
  else if bs = Priority.bytes .normal then some .normal
  else if bs = Priority.bytes .high then some .high
  else none

/-- Modelled from the spec: the Identity record of §3 (network, broadcast
zone, endpoint address, optional operator), fixed at harness construction. -/
structure Identity where
  network_id : Nat
  vyc_id : Nat
  kpps_address : List Nat
  operator_id : Option Nat
  deriving DecidableEq, Repr

/-- Identity whose endpoint address is transmittable: its bytes fit in one
byte each and never collide with the field delimiter. -/
def validIdentity (idn : Identity) : Prop :=
  ∀ b ∈ idn.kpps_address, b ≠ SEMI ∧ b < 256

instance (idn : Identity) : Decidable (validIdentity idn) := by
  unfold validIdentity; infer_instance

/-- Modelled from the spec: the structured payload of a frame (§3), one
field per decodable component of the raw form. -/
structure Payload where
  network_id : Nat
  vyc_id : Nat
  kpps_address : List Nat
  operator_id : Option Nat
  message_id : List Nat
  parameters : List (List Nat)
  priority : Priority
  timestamp : Nat
  checksum : Nat
  deriving DecidableEq, Repr

/-- Modelled from the spec: a frame is the raw delimited byte string paired
with its structured payload (§3). -/
structure Frame where
  raw : List Nat
  payload : Payload
  deriving DecidableEq, Repr

/-- Modelled from the spec: the closed message-id registry (§4.1, §9): one
entry per known message id, with the allowed token set of each parameter
position and the optional informational note (§4.3). -/
def MESSAGE_TYPES : List (List Nat × List (List (List Nat)) × Option String) :=
  [ (strBytes "SIREN",
      ([[strBytes "STEADY_TONE", strBytes "WAVERING_TONE", strBytes "FIRE_SIGNAL"]],
       none)),
    (strBytes "STATUS",
      ([], some "status query: real hardware replies out of band")),
    (strBytes "VERBAL",
      ([[strBytes "1", strBytes "2", strBytes "3", strBytes "4", strBytes "5"]],
       none)) ]

/-- Looks up the parameter schema of a message id in the closed registry. -/
def findSchema (mid : List Nat) : Option (List (List (List Nat))) :=
  (MESSAGE_TYPES.lookup mid).map Prod.fst

/-- The informational note attached to a message id, when any. -/
def noteOf (mid : List Nat) : Option String :=
  ((MESSAGE_TYPES.lookup mid).map Prod.snd).getD none

/-- Whether a parameter list matches a schema position by position. -/
def paramsMatch : List (List (List Nat)) → List (List Nat) → Bool
  | [], [] => true
  | allowed :: rest, p :: ps => p ∈ allowed && paramsMatch rest ps
  | _, _ => false

/-- Whether a message id and parameter list pass the codec's validation. -/
def validEvent (mid : List Nat) (params : List (List Nat)) : Bool :=
  match findSchema mid with
  | none => false
  | some sch => paramsMatch sch params

/-- The ordered payload fields of a frame, before the checksum is attached. -/
def frameFields (idn : Identity) (mid : List Nat) (params : List (List Nat))
    (priority : Priority) (timestamp : Nat) : List (List Nat) :=
  [natToBytes idn.network_id,
   natToBytes idn.vyc_id,
   idn.kpps_address,
   (idn.operator_id.map natToBytes).getD [],
   mid,
   joinSep COMMA params,
   priority.bytes,
   natToBytes timestamp]

/-- The payload region of the raw frame: the fields joined by `SEMI`. -/
def frameBody (idn : Identity) (mid : List Nat) (params : List (List Nat))
    (priority : Priority) (timestamp : Nat) : List Nat :=
  joinSep SEMI (frameFields idn mid params priority timestamp)

/-- The integrity checksum: byte sum of the payload region modulo 2^16. -/
def checksumOf (body : List Nat) : Nat := body.sum % 65536

/-- Modelled from the spec: `encode(identity, command) -> Frame` (§4.1), with
priority and timestamp already resolved by the caller.  Validates the message
id against the closed registry and the parameters against its schema, builds
the payload mapping, computes the checksum over the payload region, and
serializes to the raw delimited byte string. -/
def encode (idn : Identity) (mid : List Nat) (params : List (List Nat))
    (priority : Priority) (timestamp : Nat) : Except JSVVError Frame :=
  match findSchema mid with
  | none => .error .invalidCommand
  | some sch =>
    if paramsMatch sch params then
      let body := frameBody idn mid params priority timestamp
      let cs := checksumOf body
      .ok { raw := body ++ SEMI :: natToBytes cs,
            payload := { network_id := idn.network_id,
                         vyc_id := idn.vyc_id,
                         kpps_address := idn.kpps_address,
                         operator_id := idn.operator_id,
                         message_id := mid,
                         parameters := params,
                         priority := priority,
                         timestamp := timestamp,
                         checksum := cs } }
    else .error .invalidCommand

/-- Reads the optional operator field: empty means absent. -/
def parseOperator (bs : List Nat) : Option (Option Nat) :=
  if bs = [] then some none else (parseNat bs).map some

/-- Reads the parameter field: empty means no parameters. -/
def parseParams (bs : List Nat) : List (List Nat) :=
  if bs = [] then [] else splitSep COMMA bs

/-- Turns the eight payload fields plus verified checksum into a payload. -/
def fieldsToPayload (fs : List (List Nat)) (cs : Nat) : Except JSVVError Payload :=
  match fs with
  | [f1, f2, f3, f4, f5, f6, f7, f8] =>
    match parseNat f1, parseNat f2, parseOperator f4, parsePriority f7, parseNat f8 with
    | some network, some vyc, some operator, some priority, some timestamp =>
      .ok { network_id := network,
            vyc_id := vyc,
            kpps_address := f3,
            operator_id := operator,
            message_id := f5,
            parameters := parseParams f6,
            priority := priority,
            timestamp := timestamp,
            checksum := cs }
    | _, _, _, _, _ => .error .malformedFrame
  | _ => .error .malformedFrame

/-- Modelled from the spec: `decode(raw) -> payload` (§4.1).  Splits the
delimited raw byte string, checks the field grammar (`MalformedFrame`),
recomputes the checksum over the payload region and compares it against the
embedded checksum field (`ChecksumMismatch`), then rebuilds the payload. -/
def decode (raw : List Nat) : Except JSVVError Payload :=
  let fs := splitSep SEMI raw
  if fs.length = 9 then
    let body := joinSep SEMI fs.dropLast
    match parseNat (fs.getLastD []) with
    | none => .error .malformedFrame
    | some embedded =>
      if checksumOf body = embedded then
        fieldsToPayload fs.dropLast embedded
      else .error .checksumMismatch
  else .error .malformedFrame

/-- Modelled from the spec: the dedup fingerprint (§3 and glossary), derived
from identity, message id, parameters and priority, excluding timestamp. -/
structure Fingerprint where
  network_id : Nat
  vyc_id : Nat
  kpps_address : List Nat
  operator_id : Option Nat
  message_id : List Nat
  parameters : List (List Nat)
  priority : Priority
  deriving DecidableEq, Repr

/-- Modelled from the spec: the fixed dedup window length (§4.2: a fixed
configuration constant); §8's concrete scenario fixes it at 5 seconds. -/
def WINDOW_LENGTH : Nat := 5

/-- Finds the last-seen timestamp recorded for a fingerprint. -/
def findEntry (fp : Fingerprint) : List (Fingerprint × Nat) → Option Nat
  | [] => none
  | (k, v) :: rest => if k = fp then some v else findEntry fp rest

/-- Overwrites the recorded timestamp of an existing fingerprint entry. -/
def setEntry (fp : Fingerprint) (t : Nat) : List (Fingerprint × Nat) → List (Fingerprint × Nat)
  | [] => []
  | (k, v) :: rest => if k = fp then (k, t) :: rest else (k, v) :: setEntry fp t rest

/-- Modelled from the spec: `check_and_record(fingerprint, at_time)` (§4.2).
Flags a duplicate iff a prior entry exists and the command arrives strictly
inside the window; always refreshes (or creates) the entry at `at_time`. -/
def check_and_record (W : Nat) (w : List (Fingerprint × Nat)) (fp : Fingerprint)
    (t : Nat) : Bool × List (Fingerprint × Nat) :=
  match findEntry fp w with
  | some last => (decide (t - last < W), setEntry fp t w)
  | none => (false, w ++ [(fp, t)])

/-- Modelled from the spec: one event of a scenario (§3): a command without
resolved identity; priority and timestamp are optional overrides. -/
structure SimulationEvent where
  message_id : List Nat
  parameters : List (List Nat)
  priority : Option Priority
  timestamp : Option Nat
  deriving DecidableEq, Repr

/-- Modelled from the spec: the per-emission result record (§3): raw frame,
structured payload, duplicate flag and optional note. -/
structure SimulationResult where
  raw : List Nat
  payload : Payload
  note : Option String
  duplicate : Bool
  deriving DecidableEq, Repr

/-- Modelled from the spec: the simulation harness state (§4.3): the
identity fixed at construction, the dedup window mapping, and the clock used
when an event carries no explicit timestamp. -/
structure JSVVSimulator where
  identity : Identity
  window : List (Fingerprint × Nat)
  clock : Nat
  deriving DecidableEq, Repr

/-- A fresh harness over an identity: empty dedup window. -/
def JSVVSimulator.fresh (idn : Identity) (clock : Nat) : JSVVSimulator :=
  { identity := idn, window := [], clock := clock }

/-- Modelled from the spec: `emit` (§4.3): resolve identity and defaults,
encode through the codec, derive the fingerprint, consult the dedup window,
and assemble the result.  Returns the result with the updated harness. -/
def JSVVSimulator.emit (sim : JSVVSimulator) (mid : List Nat)
    (params : List (List Nat)) (priority : Option Priority)
    (timestamp : Option Nat) :
    Except JSVVError (SimulationResult × JSVVSimulator) :=
  let prio := priority.getD defaultPriority
  let ts := timestamp.getD sim.clock
  match encode sim.identity mid params prio ts with
  | .error e => .error e
  | .ok frame =>
    let fp : Fingerprint :=
      { network_id := sim.identity.network_id,
        vyc_id := sim.identity.vyc_id,
        kpps_address := sim.identity.kpps_address,
        operator_id := sim.identity.operator_id,
        message_id := mid,
        parameters := params,
        priority := prio }
    let (dup, w) := check_and_record WINDOW_LENGTH sim.window fp ts
    .ok ({ raw := frame.raw, payload := frame.payload,
           note := noteOf mid, duplicate := dup },
         { sim with window := w })

/-- Modelled from the spec: `run` (§4.3): processes events strictly in
order; a codec failure stops the remaining sequence and surfaces the error,
while the results already produced are kept. -/
def JSVVSimulator.run (sim : JSVVSimulator) :
    List SimulationEvent → List SimulationResult × JSVVSimulator × Option JSVVError
  | [] => ([], sim, none)
  | e :: es =>
    match sim.emit e.message_id e.parameters e.priority e.timestamp with
    | .error err => ([], sim, some err)
    | .ok (r, sim') =>
      (r :: (sim'.run es).1, (sim'.run es).2.1, (sim'.run es).2.2)

/-- Helper for writing scenario fixtures. -/
def ev (mid : String) (params : List String) (ts : Nat) : SimulationEvent :=
  { message_id := strBytes mid, parameters := params.map strBytes,
    priority := none, timestamp := some ts }

/-- Modelled from the spec: the static scenario registry (§4.4, §9): named
ordered fixtures that exercise the dedup window's time sensitivity and every
known message id, with explicit timestamps for determinism (§8). -/
def SCENARIOS : List (String × List SimulationEvent) :=
  [ ("siren_repeat",
      [ev "SIREN" ["STEADY_TONE"] 1000,
       ev "SIREN" ["STEADY_TONE"] 1002,
       ev "SIREN" ["STEADY_TONE"] 1010]),
    ("all_commands",
      [ev "SIREN" ["WAVERING_TONE"] 2000,
       ev "STATUS" [] 2001,
       ev "VERBAL" ["1"] 2002]) ]

/-- Modelled from the spec: retrieval by exact name from the registry; an
unknown name is the lookup error `UnknownScenario` (§4.4). -/
def get_scenario (name : String) : Except JSVVError (List SimulationEvent) :=
  match SCENARIOS.lookup name with
  | some evs => .ok evs
  | none => .error .unknownScenario

/-- Runs a named scenario through a harness; an unknown name fails before
any emission, leaving the harness untouched. -/
def run_named (sim : JSVVSimulator) (name : String) :
    Except JSVVError (List SimulationResult × JSVVSimulator × Option JSVVError) × JSVVSimulator :=
  match get_scenario name with
  | .error e => (.error e, sim)
  | .ok evs =>
    let out := sim.run evs
    (.ok out, out.2.1)

/-- Renders a byte list back to the character string the CLI prints. -/
def bytesToString (bs : List Nat) : String := String.mk (bs.map Char.ofNat)

/-- Deterministic rendering of a structured payload, modelling the
`json.dumps(payload)` line of the CLI: every payload field appears. -/
def payloadLine (p : Payload) : String :=
  bytesToString (joinSep SEMI
    (frameFields
      { network_id := p.network_id, vyc_id := p.vyc_id,
        kpps_address := p.kpps_address, operator_id := p.operator_id }
      p.message_id p.parameters p.priority p.timestamp
     ++ [natToBytes p.checksum]))

/-- The duplicate marker line of the CLI (`jsvv_simulator.py`). -/
def dupMarker : String := "# duplicate within dedup window"

/-- Embedded from `jsvv_simulator.py` `run_list` (lines 54-57): prints each
scenario name in Python `sorted` order (code-point lexicographic, modelled
on the byte lists of the names) and returns exit code 0. -/
def run_list : Nat × List String :=
  (0, (SCENARIOS.map Prod.fst).insertionSort (fun a b => strBytes a ≤ strBytes b))

/-- Embedded from `jsvv_simulator.py` `run_emit` (lines 75-92): a protocol
error is caught, printed as a one-line `Error: ...` diagnostic and mapped to
exit code 1; otherwise the raw frame and payload are printed, the duplicate
marker when flagged, and the exit code is 0. -/
def run_emit (sim : JSVVSimulator) (mid : List Nat) (params : List (List Nat))
    (priority : Option Priority) (timestamp : Option Nat) : Nat × List String :=
  match sim.emit mid params priority timestamp with
  | .error e => (1, ["Error: " ++ e.message])
  | .ok (r, _) =>
    (0, [bytesToString r.raw, payloadLine r.payload]
        ++ (if r.duplicate then [dupMarker] else []))

/-- The printed block of one scenario result: raw frame, payload, optional
note, optional duplicate marker, blank separator (`run_scenario` lines
64-71 of `jsvv_simulator.py`). -/
def renderBlock (r : SimulationResult) : List String :=
  [bytesToString r.raw, payloadLine r.payload]
  ++ (match r.note with | some n => ["# " ++ n] | none => [])
  ++ (if r.duplicate then [dupMarker] else [])
  ++ [""]

/-- Embedded from `jsvv_simulator.py` `run_scenario` (lines 60-72): looks
the scenario up, replays it and prints one block per result; a protocol
error is not caught there and propagates to the caller. -/
def run_scenario (sim : JSVVSimulator) (name : String) :
    Except JSVVError (Nat × List String) :=
  match get_scenario name with
  | .error e => .error e
  | .ok evs =>
    match sim.run evs with
    | (rs, _, none) => .ok (0, (rs.map renderBlock).flatten)
    | (_, _, some e) => .error e

/-! Helper lemmas about the wire-format primitives. -/

theorem splitSep_ne_nil (d : Nat) (xs : List Nat) : splitSep d xs ≠ [] := by
  cases xs with
  | nil => simp [splitSep]
  | cons x xs =>
    cases h : splitSep d xs with
    | nil => simp [splitSep, h]
    | cons f fs =>
      simp only [splitSep, h]
      split <;> simp

theorem splitSep_cons (d x : Nat) (xs f : List Nat) (fs : List (List Nat))
    (h : splitSep d xs = f :: fs) :
    splitSep d (x :: xs) = if x = d then [] :: f :: fs else (x :: f) :: fs := by
  rw [splitSep, h]

theorem splitSep_append (d : Nat) (a b : List Nat) :
    splitSep d (a ++ d :: b) = splitSep d a ++ splitSep d b := by
  induction a with
  | nil =>
    cases h : splitSep d b with
    | nil => exact absurd h (splitSep_ne_nil d b)
    | cons f fs => simp [splitSep, h]
  | cons x a ih =>
    cases h : splitSep d a with
    | nil => exact absurd h (splitSep_ne_nil d a)
    | cons f fs =>
      have h2 : splitSep d (a ++ d :: b) = f :: (fs ++ splitSep d b) := by
        rw [ih, h]; rfl
      rw [List.cons_append, splitSep_cons d x _ _ _ h2, splitSep_cons d x _ _ _ h]
      split <;> simp

theorem splitSep_eq_single (d : Nat) (a : List Nat) (h : d ∉ a) :
    splitSep d a = [a] := by
  induction a with
  | nil => simp [splitSep]
  | cons x a ih =>
    have hx : x ≠ d := fun hc => h (hc ▸ List.mem_cons_self x a)
    have ha : d ∉ a := fun hc => h (List.mem_cons_of_mem x hc)
    simp only [splitSep, ih ha]
    simp [hx]

theorem joinSep_cons_cons (d x : Nat) (f : List Nat) (fs : List (List Nat)) :
    joinSep d ((x :: f) :: fs) = x :: joinSep d (f :: fs) := by
  cases fs <;> simp [joinSep]

theorem joinSep_splitSep (d : Nat) (xs : List Nat) :
    joinSep d (splitSep d xs) = xs := by
  induction xs with
  | nil => simp [splitSep, joinSep]
  | cons x xs ih =>
    cases h : splitSep d xs with
    | nil => exact absurd h (splitSep_ne_nil d xs)
    | cons f fs =>
      rw [h] at ih
      rw [splitSep_cons d x _ _ _ h]
      by_cases hx : x = d
      · subst hx
        rw [if_pos rfl]
        show [] ++ x :: joinSep x (f :: fs) = x :: xs
        simp [ih]
      · rw [if_neg hx, joinSep_cons_cons, ih]

theorem splitSep_joinSep (d : Nat) (fs : List (List Nat))
    (h : ∀ f ∈ fs, d ∉ f) (hne : fs ≠ []) :
    splitSep d (joinSep d fs) = fs := by
  induction fs with
  | nil => exact absurd rfl hne
  | cons f fs ih =>
    cases fs with
    | nil =>
      simp only [joinSep]
      exact splitSep_eq_single d f (h f (List.mem_cons_self f []))
    | cons g gs =>
      have hjoin : joinSep d (f :: g :: gs) = f ++ d :: joinSep d (g :: gs) := rfl
      rw [hjoin, splitSep_append,
          splitSep_eq_single d f (h f (List.mem_cons_self f _)),
          ih (fun x hx => h x (List.mem_cons_of_mem f hx)) (by simp)]
      rfl

theorem length_splitSep (d : Nat) (xs : List Nat) :
    (splitSep d xs).length = xs.count d + 1 := by
  induction xs with
  | nil => simp [splitSep]
  | cons x xs ih =>
    cases h : splitSep d xs with
    | nil => exact absurd h (splitSep_ne_nil d xs)
    | cons f fs =>
      rw [h] at ih
      rw [splitSep_cons d x _ _ _ h]
      simp only [List.length_cons] at ih
      by_cases hx : x = d
      · subst hx
        rw [if_pos rfl]
        simp only [List.length_cons, List.count_cons_self]
        omega
      · rw [if_neg hx]
        simp only [List.length_cons, List.count_cons, beq_iff_eq, if_neg hx]
        omega

theorem mem_joinSep (d : Nat) (fs : List (List Nat)) (b : Nat)
    (hb : b ∈ joinSep d fs) : b = d ∨ ∃ f ∈ fs, b ∈ f := by
  induction fs with
  | nil => simp [joinSep] at hb
  | cons f fs ih =>
    cases fs with
    | nil =>
      simp only [joinSep] at hb
      exact Or.inr ⟨f, List.mem_cons_self f [], hb⟩
    | cons g gs =>
      have : joinSep d (f :: g :: gs) = f ++ d :: joinSep d (g :: gs) := rfl
      rw [this, List.mem_append, List.mem_cons] at hb
      rcases hb with hf | hd | hrest
      · exact Or.inr ⟨f, List.mem_cons_self f _, hf⟩
      · exact Or.inl hd
      · rcases ih hrest with hd | ⟨f', hf', hbf'⟩
        · exact Or.inl hd
        · exact Or.inr ⟨f', List.mem_cons_of_mem f hf', hbf'⟩

theorem joinSep_ne_nil_of_head_ne_nil (d : Nat) (f : List Nat)
    (fs : List (List Nat)) (hf : f ≠ []) : joinSep d (f :: fs) ≠ [] := by
  cases fs with
  | nil => simpa [joinSep] using hf
  | cons g gs =>
    have : joinSep d (f :: g :: gs) = f ++ d :: joinSep d (g :: gs) := rfl
    rw [this]
    simp

theorem natToBytesAux_congr : ∀ n f1 f2 : Nat, n < f1 → n < f2 →
    natToBytesAux f1 n = natToBytesAux f2 n := by
  intro n
  induction n using Nat.strong_induction_on with
  | _ n ih =>
    intro f1 f2 h1 h2
    match f1, f2 with
    | a + 1, b + 1 =>
      simp only [natToBytesAux]
      by_cases h : n < 10
      · simp [h]
      · have hdiv : n / 10 < n := Nat.div_lt_self (by omega) (by omega)
        rw [if_neg h, if_neg h, ih (n / 10) hdiv a b (by omega) (by omega)]

theorem natToBytes_def (n : Nat) :
    natToBytes n = if n < 10 then [48 + n] else natToBytes (n / 10) ++ [48 + n % 10] := by
  conv_lhs => rw [natToBytes]
  simp only [natToBytesAux]
  by_cases h : n < 10
  · rw [if_pos h, if_pos h]
  · rw [if_neg h, if_neg h, natToBytes,
        natToBytesAux_congr (n / 10) n (n / 10 + 1)
          (Nat.div_lt_self (by omega) (by omega)) (Nat.lt_succ_self _)]

theorem natToBytes_digits (n : Nat) : ∀ b ∈ natToBytes n, 48 ≤ b ∧ b ≤ 57 := by
  induction n using Nat.strong_induction_on with
  | _ n ih =>
    rw [natToBytes_def]
    by_cases h : n < 10
    · rw [if_pos h]
      intro b hb
      simp only [List.mem_singleton] at hb
      omega
    · rw [if_neg h]
      intro b hb
      rcases List.mem_append.mp hb with hb1 | hb2
      · exact ih (n / 10) (Nat.div_lt_self (by omega) (by omega)) b hb1
      · simp only [List.mem_singleton] at hb2
        have : n % 10 < 10 := Nat.mod_lt _ (by omega)
        omega

theorem natToBytes_ne_nil (n : Nat) : natToBytes n ≠ [] := by
  rw [natToBytes_def]
  split <;> simp

theorem natToBytes_no_semi (n : Nat) : SEMI ∉ natToBytes n := by
  intro h
  have := natToBytes_digits n SEMI h
  simp only [SEMI] at this
  omega

theorem foldl_natToBytes (n : Nat) : ∀ a : Nat,
    (natToBytes n).foldl (fun a b => a * 10 + (b - 48)) a
      = a * 10 ^ (natToBytes n).length + n := by
  induction n using Nat.strong_induction_on with
  | _ n ih =>
    intro a
    rw [natToBytes_def]
    by_cases h : n < 10
    · rw [if_pos h]
      simp only [List.foldl_cons, List.foldl_nil, List.length_singleton]
      omega
    · rw [if_neg h]
      rw [List.foldl_append, List.length_append]
      rw [ih (n / 10) (Nat.div_lt_self (by omega) (by omega)) a]
      simp only [List.foldl_cons, List.foldl_nil, List.length_singleton]
      have hmod : n % 10 < 10 := Nat.mod_lt _ (by omega)
      have hdm : 10 * (n / 10) + n % 10 = n := Nat.div_add_mod n 10
      rw [pow_succ]
      have : 48 + n % 10 - 48 = n % 10 := by omega
      rw [this]
      ring_nf
      omega

theorem parseNat_natToBytes (n : Nat) : parseNat (natToBytes n) = some n := by
  unfold parseNat
  rw [if_neg (natToBytes_ne_nil n)]
  have hall : (natToBytes n).all isDigitB = true := by
    rw [List.all_eq_true]
    intro b hb
    have := natToBytes_digits n b hb
    simp only [isDigitB, Bool.and_eq_true, decide_eq_true_eq]
    omega
  rw [if_pos hall, foldl_natToBytes n 0]
  simp

/-! Facts about the closed message registry and its parameter schemas. -/

theorem findSchema_cases (mid : List Nat) (sch : List (List (List Nat)))
    (h : findSchema mid = some sch) :
    (mid = strBytes "SIREN" ∧
      sch = [[strBytes "STEADY_TONE", strBytes "WAVERING_TONE", strBytes "FIRE_SIGNAL"]]) ∨
    (mid = strBytes "STATUS" ∧ sch = []) ∨
    (mid = strBytes "VERBAL" ∧
      sch = [[strBytes "1", strBytes "2", strBytes "3", strBytes "4", strBytes "5"]]) := by
  simp only [findSchema, MESSAGE_TYPES, List.lookup] at h
  cases hb1 : mid == strBytes "SIREN" with
  | true =>
    rw [hb1] at h
    simp at h
    exact Or.inl ⟨by simpa using hb1, by first | exact h | exact h.symm⟩
  | false =>
    rw [hb1] at h
    cases hb2 : mid == strBytes "STATUS" with
    | true =>
      rw [hb2] at h
      simp at h
      exact Or.inr (Or.inl ⟨by simpa using hb2, by first | exact h | exact h.symm⟩)
    | false =>
      rw [hb2] at h
      cases hb3 : mid == strBytes "VERBAL" with
      | true =>
        rw [hb3] at h
        simp at h
        exact Or.inr (Or.inr ⟨by simpa using hb3, by first | exact h | exact h.symm⟩)
      | false =>
        rw [hb3] at h
        simp at h

theorem mid_good (mid : List Nat) (sch : List (List (List Nat)))
    (h : findSchema mid = some sch) :
    SEMI ∉ mid ∧ ∀ b ∈ mid, b < 256 := by
  rcases findSchema_cases mid sch h with ⟨hm, _⟩ | ⟨hm, _⟩ | ⟨hm, _⟩ <;>
    · subst hm
      exact ⟨by decide, by decide⟩

theorem schema_token_good (mid : List Nat) (sch : List (List (List Nat)))
    (h : findSchema mid = some sch) :
    ∀ allowed ∈ sch, ∀ tok ∈ allowed,
      tok ≠ [] ∧ COMMA ∉ tok ∧ SEMI ∉ tok ∧ ∀ b ∈ tok, b < 256 := by
  rcases findSchema_cases mid sch h with ⟨_, hs⟩ | ⟨_, hs⟩ | ⟨_, hs⟩ <;>
    · subst hs
      decide

theorem paramsMatch_mem (sch : List (List (List Nat))) (params : List (List Nat))
    (h : paramsMatch sch params = true) :
    ∀ p ∈ params, ∃ allowed ∈ sch, p ∈ allowed := by
  induction sch generalizing params with
  | nil =>
    cases params with
    | nil => intro p hp; simp at hp
    | cons p ps => simp [paramsMatch] at h
  | cons allowed rest ih =>
    cases params with
    | nil => intro p hp; simp at hp
    | cons p ps =>
      simp only [paramsMatch, Bool.and_eq_true, decide_eq_true_eq] at h
      intro q hq
      rcases List.mem_cons.mp hq with hq1 | hq2
      · exact ⟨allowed, List.mem_cons_self _ _, hq1 ▸ h.1⟩
      · rcases ih ps h.2 q hq2 with ⟨al, hal, hmem⟩
        exact ⟨al, List.mem_cons_of_mem _ hal, hmem⟩

theorem priority_bytes_no_semi (pr : Priority) : SEMI ∉ pr.bytes := by
  cases pr <;> decide

theorem parsePriority_bytes (pr : Priority) : parsePriority pr.bytes = some pr := by
  cases pr <;> decide

theorem priority_bytes_lt (pr : Priority) : ∀ b ∈ pr.bytes, b < 256 := by
  cases pr <;> decide

/-! Field-level facts about encoded frames. -/

theorem frameFields_no_semi (idn : Identity) (mid : List Nat)
    (params : List (List Nat)) (prio : Priority) (ts : Nat)
    (sch : List (List (List Nat)))
    (hid : validIdentity idn) (hs : findSchema mid = some sch)
    (hp : paramsMatch sch params = true) :
    ∀ f ∈ frameFields idn mid params prio ts, SEMI ∉ f := by
  intro f hf
  simp only [frameFields, List.mem_cons, List.not_mem_nil, or_false] at hf
  rcases hf with h | h | h | h | h | h | h | h
  · exact h ▸ natToBytes_no_semi _
  · exact h ▸ natToBytes_no_semi _
  · subst h; intro hmem; exact (hid SEMI hmem).1 rfl
  · subst h
    cases ho : idn.operator_id with
    | none => simp [ho]
    | some k => simpa using natToBytes_no_semi k
  · exact h ▸ (mid_good mid sch hs).1
  · subst h
    intro hmem
    rcases mem_joinSep COMMA params SEMI hmem with heq | ⟨p, hpmem, hbp⟩
    · simp [SEMI, COMMA] at heq
    · rcases paramsMatch_mem sch params hp p hpmem with ⟨al, hal, hpal⟩
      exact (schema_token_good mid sch hs al hal p hpal).2.2.1 hbp
  · exact h ▸ priority_bytes_no_semi prio
  · exact h ▸ natToBytes_no_semi _

theorem frameFields_bytes_lt (idn : Identity) (mid : List Nat)
    (params : List (List Nat)) (prio : Priority) (ts : Nat)
    (sch : List (List (List Nat)))
    (hid : validIdentity idn) (hs : findSchema mid = some sch)
    (hp : paramsMatch sch params = true) :
    ∀ f ∈ frameFields idn mid params prio ts, ∀ x ∈ f, x < 256 := by
  intro f hf
  simp only [frameFields, List.mem_cons, List.not_mem_nil, or_false] at hf
  rcases hf with h | h | h | h | h | h | h | h
  · exact h ▸ fun x hx => by have := natToBytes_digits _ x hx; omega
  · exact h ▸ fun x hx => by have := natToBytes_digits _ x hx; omega
  · subst h; exact fun x hx => (hid x hx).2
  · subst h
    cases ho : idn.operator_id with
    | none => simp
    | some k =>
      intro x hx
      simp at hx
      have := natToBytes_digits k x hx
      omega
  · exact h ▸ (mid_good mid sch hs).2
  · subst h
    intro x hx
    rcases mem_joinSep COMMA params x hx with heq | ⟨p, hpmem, hbp⟩
    · subst heq; simp [COMMA]
    · rcases paramsMatch_mem sch params hp p hpmem with ⟨al, hal, hpal⟩
      exact (schema_token_good mid sch hs al hal p hpal).2.2.2 x hbp
  · exact h ▸ priority_bytes_lt prio
  · exact h ▸ fun x hx => by have := natToBytes_digits _ x hx; omega

theorem frameBody_bytes_lt (idn : Identity) (mid : List Nat)
    (params : List (List Nat)) (prio : Priority) (ts : Nat)
    (sch : List (List (List Nat)))
    (hid : validIdentity idn) (hs : findSchema mid = some sch)
    (hp : paramsMatch sch params = true) :
    ∀ x ∈ frameBody idn mid params prio ts, x < 65536 := by
  intro x hx
  rcases mem_joinSep SEMI _ x hx with heq | ⟨f, hf, hxf⟩
  · subst heq; simp [SEMI]
  · have := frameFields_bytes_lt idn mid params prio ts sch hid hs hp f hf x hxf
    omega

theorem splitSep_frameBody (idn : Identity) (mid : List Nat)
    (params : List (List Nat)) (prio : Priority) (ts : Nat)
    (sch : List (List (List Nat)))
    (hid : validIdentity idn) (hs : findSchema mid = some sch)
    (hp : paramsMatch sch params = true) :
    splitSep SEMI (frameBody idn mid params prio ts)
      = frameFields idn mid params prio ts :=
  splitSep_joinSep SEMI _ (frameFields_no_semi idn mid params prio ts sch hid hs hp)
    (by simp [frameFields])

theorem parseParams_joinSep (params : List (List Nat))
    (h : ∀ p ∈ params, p ≠ [] ∧ COMMA ∉ p) :
    parseParams (joinSep COMMA params) = params := by
  cases params with
  | nil => rfl
  | cons p ps =>
    have hne : joinSep COMMA (p :: ps) ≠ [] :=
      joinSep_ne_nil_of_head_ne_nil _ _ _ (h p (List.mem_cons_self _ _)).1
    unfold parseParams
    rw [if_neg hne]
    exact splitSep_joinSep COMMA (p :: ps) (fun f hf => (h f hf).2) (by simp)

theorem parseOperator_field (o : Option Nat) :
    parseOperator ((o.map natToBytes).getD []) = some o := by
  cases o with
  | none => rfl
  | some k => simp [parseOperator, natToBytes_ne_nil k, parseNat_natToBytes]

theorem splitSep_frameRaw (idn : Identity) (mid : List Nat)
    (params : List (List Nat)) (prio : Priority) (ts : Nat)
    (sch : List (List (List Nat)))
    (hid : validIdentity idn) (hs : findSchema mid = some sch)
    (hp : paramsMatch sch params = true) :
    splitSep SEMI (frameBody idn mid params prio ts
        ++ SEMI :: natToBytes (checksumOf (frameBody idn mid params prio ts)))
      = frameFields idn mid params prio ts
        ++ [natToBytes (checksumOf (frameBody idn mid params prio ts))] := by
  rw [splitSep_append, splitSep_frameBody idn mid params prio ts sch hid hs hp,
      splitSep_eq_single _ _ (natToBytes_no_semi _)]

theorem decode_frame (idn : Identity) (mid : List Nat) (params : List (List Nat))
    (prio : Priority) (ts : Nat) (sch : List (List (List Nat)))
    (hid : validIdentity idn) (hs : findSchema mid = some sch)
    (hp : paramsMatch sch params = true) :
    decode (frameBody idn mid params prio ts
            ++ SEMI :: natToBytes (checksumOf (frameBody idn mid params prio ts)))
      = .ok { network_id := idn.network_id, vyc_id := idn.vyc_id,
              kpps_address := idn.kpps_address, operator_id := idn.operator_id,
              message_id := mid, parameters := params, priority := prio,
              timestamp := ts,
              checksum := checksumOf (frameBody idn mid params prio ts) } := by
  have hsplit := splitSep_frameRaw idn mid params prio ts sch hid hs hp
  unfold decode
  rw [hsplit]
  have hlen9 : (frameFields idn mid params prio ts
      ++ [natToBytes (checksumOf (frameBody idn mid params prio ts))]).length = 9 := by
    simp [frameFields]
  rw [if_pos hlen9]
  have hdrop : (frameFields idn mid params prio ts
      ++ [natToBytes (checksumOf (frameBody idn mid params prio ts))]).dropLast
      = frameFields idn mid params prio ts := by simp
  have hlast : (frameFields idn mid params prio ts
      ++ [natToBytes (checksumOf (frameBody idn mid params prio ts))]).getLastD []
      = natToBytes (checksumOf (frameBody idn mid params prio ts)) := by simp
  rw [hdrop, hlast, parseNat_natToBytes]
  dsimp only
  have hbody : joinSep SEMI (frameFields idn mid params prio ts)
      = frameBody idn mid params prio ts := rfl
  rw [hbody, if_pos rfl]
  simp only [frameFields, fieldsToPayload, parseNat_natToBytes,
             parseOperator_field, parsePriority_bytes]
  have hparams : parseParams (joinSep COMMA params) = params := by
    apply parseParams_joinSep
    intro p hpmem
    rcases paramsMatch_mem sch params hp p hpmem with ⟨al, hal, hpal⟩
    have := schema_token_good mid sch hs al hal p hpal
    exact ⟨this.1, this.2.1⟩
  rw [hparams]

/-! Concrete fixtures used by witnesses and counterexamples. -/

/-- The CLI's default identity: network 1, zone 1, endpoint `0x0001`. -/
def demoIdentity : Identity :=
  { network_id := 1, vyc_id := 1, kpps_address := strBytes "0x0001",
    operator_id := none }

/-- Payload region of the demo SIREN frame. -/
def demoBody : List Nat :=
  frameBody demoIdentity (strBytes "SIREN") [strBytes "STEADY_TONE"]
    defaultPriority 1000

/-- Checksum of the demo frame. -/
def demoChecksum : Nat := checksumOf demoBody

/-- Raw wire form of the demo frame. -/
def demoRaw : List Nat := demoBody ++ SEMI :: natToBytes demoChecksum

/-- Structured payload of the demo frame. -/
def demoPayload : Payload :=
  { network_id := 1, vyc_id := 1, kpps_address := strBytes "0x0001",
    operator_id := none, message_id := strBytes "SIREN",
    parameters := [strBytes "STEADY_TONE"], priority := .normal,
    timestamp := 1000, checksum := demoChecksum }

/-- The demo frame as a whole. -/
def demoFrame : Frame := { raw := demoRaw, payload := demoPayload }

/-- The result record of the demo emission through a fresh harness. -/
def demoEmitResult : SimulationResult :=
  ((((JSVVSimulator.fresh demoIdentity 0).emit (strBytes "SIREN")
      [strBytes "STEADY_TONE"] none (some 1000)).toOption).map Prod.fst).getD
    { raw := [], payload := demoPayload, note := none, duplicate := false }

/-- The harness state after the demo emission. -/
def demoEmitSim : JSVVSimulator :=
  ((((JSVVSimulator.fresh demoIdentity 0).emit (strBytes "SIREN")
      [strBytes "STEADY_TONE"] none (some 1000)).toOption).map Prod.snd).getD
    (JSVVSimulator.fresh demoIdentity 0)

/-! Lemmas about the deduplication window. -/

theorem findEntry_setEntry_of_found (fp : Fingerprint) (t : Nat)
    (w : List (Fingerprint × Nat)) (last : Nat)
    (h : findEntry fp w = some last) :
    findEntry fp (setEntry fp t w) = some t := by
  induction w with
  | nil => simp [findEntry] at h
  | cons kv rest ih =>
    obtain ⟨k, v⟩ := kv
    by_cases hk : k = fp
    · simp [findEntry, setEntry, hk]
    · simp only [findEntry, setEntry, if_neg hk] at h ⊢
      exact ih h

theorem findEntry_append_single (fp : Fingerprint) (t : Nat)
    (w : List (Fingerprint × Nat))
    (h : findEntry fp w = none) :
    findEntry fp (w ++ [(fp, t)]) = some t := by
  induction w with
  | nil => simp [findEntry]
  | cons kv rest ih =>
    obtain ⟨k, v⟩ := kv
    by_cases hk : k = fp
    · simp [findEntry, if_pos hk] at h
    · simp only [findEntry, if_neg hk] at h
      simp only [List.cons_append, findEntry, if_neg hk]
      exact ih h

/-! Lemmas about the harness. -/

theorem encode_eq_error_iff (idn : Identity) (mid : List Nat)
    (params : List (List Nat)) (prio : Priority) (ts : Nat) :
    encode idn mid params prio ts = .error .invalidCommand
      ↔ validEvent mid params = false := by
  unfold encode validEvent
  cases hs : findSchema mid with
  | none => simp
  | some sch => cases hm : paramsMatch sch params <;> simp [hm]

theorem encode_exists_ok (idn : Identity) (mid : List Nat)
    (params : List (List Nat)) (prio : Priority) (ts : Nat)
    (h : validEvent mid params = true) :
    ∃ frame, encode idn mid params prio ts = .ok frame := by
  unfold encode
  unfold validEvent at h
  cases hs : findSchema mid with
  | none => rw [hs] at h; simp at h
  | some sch =>
    rw [hs] at h
    dsimp only at h
    dsimp only
    rw [if_pos (by simp [h])]
    exact ⟨_, rfl⟩

theorem emit_error_of_invalid (sim : JSVVSimulator) (mid : List Nat)
    (params : List (List Nat)) (prio : Option Priority) (ts : Option Nat)
    (h : validEvent mid params = false) :
    sim.emit mid params prio ts = .error .invalidCommand := by
  have he := (encode_eq_error_iff sim.identity mid params
    (prio.getD defaultPriority) (ts.getD sim.clock)).mpr h
  simp only [JSVVSimulator.emit, he]

theorem emit_ok_of_valid (sim : JSVVSimulator) (mid : List Nat)
    (params : List (List Nat)) (prio : Option Priority) (ts : Option Nat)
    (h : validEvent mid params = true) :
    ∃ r sim', sim.emit mid params prio ts = .ok (r, sim') := by
  rcases encode_exists_ok sim.identity mid params
    (prio.getD defaultPriority) (ts.getD sim.clock) h with ⟨frame, he⟩
  simp only [JSVVSimulator.emit, he]
  exact ⟨_, _, rfl⟩

theorem run_no_error (sim : JSVVSimulator) (evs : List SimulationEvent)
    (h : ∀ e ∈ evs, validEvent e.message_id e.parameters = true) :
    (sim.run evs).2.2 = none := by
  induction evs generalizing sim with
  | nil => rfl
  | cons e es ih =>
    rcases emit_ok_of_valid sim e.message_id e.parameters e.priority e.timestamp
      (h e (List.mem_cons_self _ _)) with ⟨r, sim', he⟩
    simp only [JSVVSimulator.run, he]
    exact ih sim' (fun x hx => h x (List.mem_cons_of_mem _ hx))

theorem lookup_eq_none_of_not_mem_keys {α β : Type} [BEq α] [LawfulBEq α]
    (l : List (α × β)) (a : α) (h : a ∉ l.map Prod.fst) :
    l.lookup a = none := by
  induction l with
  | nil => rfl
  | cons kv rest ih =>
    obtain ⟨k, v⟩ := kv
    simp only [List.map_cons, List.mem_cons] at h
    push_neg at h
    simp only [List.lookup, beq_eq_false_iff_ne.mpr h.1]
    exact ih h.2

/-! Claim theorems. -/

/-- C1: for every valid Command and Identity with priority and timestamp
supplied explicitly, decoding the raw frame produced by encode yields exactly
the structured payload produced by that same encode call, and the checksum
recomputed during decode (over the payload region of the raw frame) equals
the embedded checksum carried in the payload. -/
theorem C1_codec_round_trip (idn : Identity) (mid : List Nat)
    (params : List (List Nat)) (prio : Priority) (ts : Nat) (frame : Frame)
    (hid : validIdentity idn)
    (henc : encode idn mid params prio ts = .ok frame) :
    decode frame.raw = .ok frame.payload ∧
    checksumOf (joinSep SEMI (splitSep SEMI frame.raw).dropLast)
      = frame.payload.checksum := by
  unfold encode at henc
  cases hs : findSchema mid with
  | none => rw [hs] at henc; simp at henc
  | some sch =>
    rw [hs] at henc
    dsimp only at henc
    by_cases hp : paramsMatch sch params = true
    · rw [if_pos hp] at henc
      obtain hframe := Except.ok.inj henc
      subst hframe
      refine ⟨decode_frame idn mid params prio ts sch hid hs hp, ?_⟩
      have hsplit := splitSep_frameRaw idn mid params prio ts sch hid hs hp
      show checksumOf (joinSep SEMI (splitSep SEMI (frameBody idn mid params prio ts
          ++ SEMI :: natToBytes (checksumOf (frameBody idn mid params prio ts)))).dropLast)
          = checksumOf (frameBody idn mid params prio ts)
      rw [hsplit]
      have hdrop : (frameFields idn mid params prio ts
          ++ [natToBytes (checksumOf (frameBody idn mid params prio ts))]).dropLast
          = frameFields idn mid params prio ts := by simp
      rw [hdrop]
      rfl
    · rw [if_neg hp] at henc
      simp at henc

/-- Witness for C1: the demo SIREN frame round-trips through the codec. -/
theorem C1_codec_round_trip_witness :
    decode demoFrame.raw = Except.ok demoFrame.payload ∧
    checksumOf (joinSep SEMI (splitSep SEMI demoFrame.raw).dropLast)
      = demoFrame.payload.checksum :=
  C1_codec_round_trip demoIdentity (strBytes "SIREN") [strBytes "STEADY_TONE"]
    .normal 1000 demoFrame (by decide) (by decide)

/-- C2: `check_and_record(f, t)` flags a duplicate iff an entry for `f`
exists and `t` minus its last-seen time is strictly below the window length,
and in every case the entry's last-seen time is `t` afterwards. -/
theorem C2_check_and_record_spec (W : Nat) (w : List (Fingerprint × Nat))
    (fp : Fingerprint) (t : Nat) :
    ((check_and_record W w fp t).1 = true
        ↔ ∃ last, findEntry fp w = some last ∧ t - last < W)
    ∧ findEntry fp (check_and_record W w fp t).2 = some t := by
  unfold check_and_record
  cases hfind : findEntry fp w with
  | none =>
    constructor
    · simp [hfind]
    · exact findEntry_append_single fp t w hfind
  | some last =>
    constructor
    · simp [hfind, decide_eq_true_eq]
    · exact findEntry_setEntry_of_found fp t w last hfind

/-- C3: with window length 5, emitting SIREN STEADY_TONE under a fixed
identity at timestamps 1000, 1002 and 1010 through a fresh harness yields
duplicate flags false, true, false in that order. -/
theorem C3_siren_window_scenario :
    WINDOW_LENGTH = 5 ∧
    ((JSVVSimulator.fresh demoIdentity 0).run
        [ev "SIREN" ["STEADY_TONE"] 1000,
         ev "SIREN" ["STEADY_TONE"] 1002,
         ev "SIREN" ["STEADY_TONE"] 1010]).1.map (fun r => r.duplicate)
      = [false, true, false] :=
  ⟨rfl, by decide⟩

/-- C4 counterexample: a single byte change in the payload region of a valid
frame need not fail with ChecksumMismatch: changing a payload byte to the
field delimiter, or a delimiter byte to a plain character, corrupts the field
grammar and decode fails with MalformedFrame instead. -/
theorem C4_delimiter_byte_counterexample :
    decode demoRaw = Except.ok demoPayload ∧
    demoBody = 49 :: 59 :: demoBody.drop 2 ∧
    decode ((59 :: 59 :: demoBody.drop 2) ++ SEMI :: natToBytes demoChecksum)
      = .error .malformedFrame ∧
    decode ((49 :: 49 :: demoBody.drop 2) ++ SEMI :: natToBytes demoChecksum)
      = .error .malformedFrame := by
  refine ⟨by decide, by decide, by decide, by decide⟩

/-- C4 (amended): for every valid raw frame and every single-byte change in
the payload region that neither touches a field-delimiter byte nor writes
the delimiter value, decode fails with ChecksumMismatch.  (Changes that add
or remove a delimiter corrupt the field grammar and fail with MalformedFrame
instead, as the counterexample shows.) -/
theorem C4_single_byte_checksum_mismatch (idn : Identity) (mid : List Nat)
    (params : List (List Nat)) (prio : Priority) (ts : Nat)
    (sch : List (List (List Nat))) (u v : List Nat) (old b : Nat)
    (hid : validIdentity idn) (hs : findSchema mid = some sch)
    (hp : paramsMatch sch params = true)
    (hbody : frameBody idn mid params prio ts = u ++ old :: v)
    (hold : old ≠ SEMI) (hb : b ≠ SEMI) (hne : b ≠ old) (hblt : b < 65536) :
    decode ((u ++ b :: v)
        ++ SEMI :: natToBytes (checksumOf (frameBody idn mid params prio ts)))
      = .error .checksumMismatch := by
  have hsplit : splitSep SEMI ((u ++ b :: v)
        ++ SEMI :: natToBytes (checksumOf (frameBody idn mid params prio ts)))
      = splitSep SEMI (u ++ b :: v)
        ++ [natToBytes (checksumOf (frameBody idn mid params prio ts))] := by
    rw [splitSep_append, splitSep_eq_single _ _ (natToBytes_no_semi _)]
  have hcount : (u ++ b :: v).count SEMI = (u ++ old :: v).count SEMI := by
    simp only [List.count_append, List.count_cons, beq_iff_eq, if_neg hb,
               if_neg hold]
  have hlen8 : (splitSep SEMI (u ++ b :: v)).length = 8 := by
    have h1 := length_splitSep SEMI (u ++ b :: v)
    have h2 := length_splitSep SEMI (frameBody idn mid params prio ts)
    rw [splitSep_frameBody idn mid params prio ts sch hid hs hp] at h2
    have h3 : (frameFields idn mid params prio ts).length = 8 := by
      simp [frameFields]
    rw [hbody] at h2
    rw [h1, hcount]
    omega
  unfold decode
  rw [hsplit]
  have hlen9 : (splitSep SEMI (u ++ b :: v)
      ++ [natToBytes (checksumOf (frameBody idn mid params prio ts))]).length = 9 := by
    simp [hlen8]
  rw [if_pos hlen9]
  have hdrop : (splitSep SEMI (u ++ b :: v)
      ++ [natToBytes (checksumOf (frameBody idn mid params prio ts))]).dropLast
      = splitSep SEMI (u ++ b :: v) := by simp
  have hlast : (splitSep SEMI (u ++ b :: v)
      ++ [natToBytes (checksumOf (frameBody idn mid params prio ts))]).getLastD []
      = natToBytes (checksumOf (frameBody idn mid params prio ts)) := by simp
  rw [hdrop, hlast, parseNat_natToBytes]
  dsimp only
  rw [joinSep_splitSep]
  have holdlt : old < 65536 := by
    have := frameBody_bytes_lt idn mid params prio ts sch hid hs hp old
    rw [hbody] at this
    exact this (by simp)
  have hneq : checksumOf (u ++ b :: v)
      ≠ checksumOf (frameBody idn mid params prio ts) := by
    rw [hbody]
    unfold checksumOf
    simp only [List.sum_append, List.sum_cons]
    intro hc
    omega
  rw [if_neg hneq]

/-- Witness for C4 (amended): changing the first payload byte of the demo
frame from `1` to `2` makes decode fail with ChecksumMismatch. -/
theorem C4_single_byte_checksum_mismatch_witness :
    decode (([] ++ 50 :: demoBody.drop 1)
        ++ SEMI :: natToBytes (checksumOf demoBody))
      = .error .checksumMismatch :=
  C4_single_byte_checksum_mismatch demoIdentity (strBytes "SIREN")
    [strBytes "STEADY_TONE"] defaultPriority 1000
    [[strBytes "STEADY_TONE", strBytes "WAVERING_TONE", strBytes "FIRE_SIGNAL"]]
    [] (demoBody.drop 1) 49 50
    (by decide) (by decide) (by decide) (by decide) (by decide) (by decide)
    (by decide) (by decide)

/-- C5: encode fails with InvalidCommand exactly when the message id is not
in the closed registry or the parameters do not match its schema; and every
message id referenced by a built-in scenario is accepted by the codec. -/
theorem C5_invalid_command_iff :
    (∀ (idn : Identity) (mid : List Nat) (params : List (List Nat))
        (prio : Priority) (ts : Nat),
      encode idn mid params prio ts = .error .invalidCommand
        ↔ (findSchema mid = none
            ∨ ∃ sch, findSchema mid = some sch ∧ paramsMatch sch params = false))
    ∧ (∀ name evs, (name, evs) ∈ SCENARIOS →
        ∀ e ∈ evs, validEvent e.message_id e.parameters = true) := by
  constructor
  · intro idn mid params prio ts
    unfold encode
    cases hs : findSchema mid with
    | none => simp
    | some sch =>
      cases hm : paramsMatch sch params <;> simp [hm]
  · intro name evs hmem
    simp only [SCENARIOS, List.mem_cons, List.not_mem_nil, or_false,
               Prod.mk.injEq] at hmem
    rcases hmem with ⟨h1, h2⟩ | ⟨h1, h2⟩ <;> subst h2 <;> decide

/-- Witness for C5: an unknown message id is rejected with InvalidCommand,
and the SIREN event of the shipped `siren_repeat` scenario validates. -/
theorem C5_invalid_command_iff_witness :
    encode demoIdentity (strBytes "BOGUS") [] .normal 0
      = .error .invalidCommand ∧
    validEvent (ev "SIREN" ["STEADY_TONE"] 1000).message_id
      (ev "SIREN" ["STEADY_TONE"] 1000).parameters = true :=
  ⟨(C5_invalid_command_iff.1 demoIdentity (strBytes "BOGUS") [] .normal 0).mpr
      (Or.inl (by decide)),
   C5_invalid_command_iff.2 "siren_repeat"
     [ev "SIREN" ["STEADY_TONE"] 1000, ev "SIREN" ["STEADY_TONE"] 1002,
      ev "SIREN" ["STEADY_TONE"] 1010]
     (by decide) (ev "SIREN" ["STEADY_TONE"] 1000) (by decide)⟩

/-- C6: if encoding an event fails during `run`, no later event is processed,
the error is surfaced, and the results produced for the earlier events are
exactly those of running the prefix alone. -/
theorem C6_run_aborts_on_error (sim : JSVVSimulator)
    (pre : List SimulationEvent) (bad : SimulationEvent)
    (post : List SimulationEvent)
    (hpre : (sim.run pre).2.2 = none)
    (hbad : validEvent bad.message_id bad.parameters = false) :
    sim.run (pre ++ bad :: post)
      = ((sim.run pre).1, (sim.run pre).2.1, some JSVVError.invalidCommand) := by
  induction pre generalizing sim with
  | nil =>
    simp only [List.nil_append, JSVVSimulator.run,
               emit_error_of_invalid sim bad.message_id bad.parameters
                 bad.priority bad.timestamp hbad]
  | cons e es ih =>
    cases he : sim.emit e.message_id e.parameters e.priority e.timestamp with
    | error err =>
      exfalso
      simp only [JSVVSimulator.run, he] at hpre
      exact Option.noConfusion hpre
    | ok rs =>
      obtain ⟨r, sim'⟩ := rs
      simp only [JSVVSimulator.run, he] at hpre ⊢
      simp only [List.append_eq] at ih ⊢
      rw [ih sim' hpre]

/-- Witness for C6: a bogus middle event stops the demo sequence after the
first result and surfaces InvalidCommand. -/
theorem C6_run_aborts_on_error_witness :
    (JSVVSimulator.fresh demoIdentity 0).run
        ([ev "SIREN" ["STEADY_TONE"] 1000]
          ++ ev "BOGUS" [] 1001 :: [ev "SIREN" ["STEADY_TONE"] 1002])
      = (((JSVVSimulator.fresh demoIdentity 0).run
            [ev "SIREN" ["STEADY_TONE"] 1000]).1,
         ((JSVVSimulator.fresh demoIdentity 0).run
            [ev "SIREN" ["STEADY_TONE"] 1000]).2.1,
         some JSVVError.invalidCommand) :=
  C6_run_aborts_on_error (JSVVSimulator.fresh demoIdentity 0)
    [ev "SIREN" ["STEADY_TONE"] 1000] (ev "BOGUS" [] 1001)
    [ev "SIREN" ["STEADY_TONE"] 1002] (by decide) (by decide)

/-- C7: requesting a scenario name absent from the static registry fails
with UnknownScenario and leaves the harness state unchanged. -/
theorem C7_unknown_scenario_lookup (sim : JSVVSimulator) (name : String)
    (h : name ∉ SCENARIOS.map Prod.fst) :
    run_named sim name = (.error .unknownScenario, sim) := by
  unfold run_named get_scenario
  rw [lookup_eq_none_of_not_mem_keys SCENARIOS name h]

/-- Witness for C7: the name `missing` is rejected on a fresh harness. -/
theorem C7_unknown_scenario_lookup_witness :
    run_named (JSVVSimulator.fresh demoIdentity 0) "missing"
      = (.error .unknownScenario, JSVVSimulator.fresh demoIdentity 0) :=
  C7_unknown_scenario_lookup (JSVVSimulator.fresh demoIdentity 0) "missing"
    (by decide)

/-- C8: the CLI returns exit code 0 on success and 1 with a one-line
`Error: ...` diagnostic (including the underlying message) when a protocol
error is raised; built-in scenarios always replay with exit code 0, and the
list subcommand returns 0. -/
theorem C8_cli_exit_codes :
    (∀ (sim : JSVVSimulator) (mid : List Nat) (params : List (List Nat))
        (prio : Option Priority) (ts : Option Nat) (e : JSVVError),
      sim.emit mid params prio ts = .error e →
      run_emit sim mid params prio ts = (1, ["Error: " ++ e.message]))
    ∧ (∀ (sim : JSVVSimulator) (mid : List Nat) (params : List (List Nat))
        (prio : Option Priority) (ts : Option Nat) (r : SimulationResult)
        (sim' : JSVVSimulator),
      sim.emit mid params prio ts = .ok (r, sim') →
      (run_emit sim mid params prio ts).1 = 0)
    ∧ (∀ (sim : JSVVSimulator) (name : String) (evs : List SimulationEvent),
      (name, evs) ∈ SCENARIOS →
      ∃ lines, run_scenario sim name = .ok (0, lines))
    ∧ run_list.1 = 0 := by
  refine ⟨?_, ?_, ?_, rfl⟩
  · intro sim mid params prio ts e he
    simp only [run_emit, he]
  · intro sim mid params prio ts r sim' he
    simp only [run_emit, he]
  · intro sim name evs hmem
    have hvalid : ∀ e ∈ evs, validEvent e.message_id e.parameters = true := by
      simp only [SCENARIOS, List.mem_cons, List.not_mem_nil, or_false,
                 Prod.mk.injEq] at hmem
      rcases hmem with ⟨h1, h2⟩ | ⟨h1, h2⟩ <;> subst h2 <;> decide
    have hlook : SCENARIOS.lookup name = some evs := by
      simp only [SCENARIOS, List.mem_cons, List.not_mem_nil, or_false,
                 Prod.mk.injEq] at hmem
      rcases hmem with ⟨h1, h2⟩ | ⟨h1, h2⟩ <;> subst h1 <;> subst h2 <;> rfl
    have hnoerr := run_no_error sim evs hvalid
    unfold run_scenario get_scenario
    rw [hlook]
    dsimp only
    rcases hrun : sim.run evs with ⟨rs2, simF2, err2⟩
    rw [hrun] at hnoerr
    dsimp only at hnoerr
    subst hnoerr
    exact ⟨(rs2.map renderBlock).flatten, rfl⟩

/-- Witness for C8: a bogus emit exits 1 with the diagnostic line, and the
shipped `siren_repeat` scenario replays with exit code 0. -/
theorem C8_cli_exit_codes_witness :
    run_emit (JSVVSimulator.fresh demoIdentity 0) (strBytes "BOGUS") [] none none
      = (1, ["Error: " ++ JSVVError.invalidCommand.message]) ∧
    (∃ lines, run_scenario (JSVVSimulator.fresh demoIdentity 0) "siren_repeat"
        = .ok (0, lines)) :=
  ⟨C8_cli_exit_codes.1 (JSVVSimulator.fresh demoIdentity 0) (strBytes "BOGUS")
      [] none none .invalidCommand (by decide),
   C8_cli_exit_codes.2.2.1 (JSVVSimulator.fresh demoIdentity 0) "siren_repeat"
     [ev "SIREN" ["STEADY_TONE"] 1000, ev "SIREN" ["STEADY_TONE"] 1002,
      ev "SIREN" ["STEADY_TONE"] 1010] (by decide)⟩

/-- C9: for every emission processed by the CLI, the raw frame and the full
structured payload are printed regardless of the duplicate flag; a true
duplicate flag only adds the marker line and never suppresses or alters the
raw or payload output. -/
theorem C9_emission_output_shape :
    (∀ (sim : JSVVSimulator) (mid : List Nat) (params : List (List Nat))
        (prio : Option Priority) (ts : Option Nat) (r : SimulationResult)
        (sim' : JSVVSimulator),
      sim.emit mid params prio ts = .ok (r, sim') →
      run_emit sim mid params prio ts
        = (0, [bytesToString r.raw, payloadLine r.payload]
              ++ (if r.duplicate then [dupMarker] else [])))
    ∧ (∀ r : SimulationResult,
        renderBlock r
          = [bytesToString r.raw, payloadLine r.payload]
            ++ (match r.note with | some n => ["# " ++ n] | none => [])
            ++ (if r.duplicate then [dupMarker] else []) ++ [""])
    ∧ (∀ r : SimulationResult,
        (renderBlock r).take 2 = [bytesToString r.raw, payloadLine r.payload])
    ∧ (∀ (sim : JSVVSimulator) (name : String) (evs : List SimulationEvent)
        (rs : List SimulationResult) (simF : JSVVSimulator),
      SCENARIOS.lookup name = some evs →
      sim.run evs = (rs, simF, none) →
      run_scenario sim name = .ok (0, (rs.map renderBlock).flatten)) := by
  refine ⟨?_, fun r => rfl, fun r => rfl, ?_⟩
  · intro sim mid params prio ts r sim' he
    simp only [run_emit, he]
  · intro sim name evs rs simF hlook hrun
    unfold run_scenario get_scenario
    rw [hlook]
    dsimp only
    rw [hrun]

/-- Witness for C9: the concrete demo emission prints its raw frame and
payload lines followed only by the optional duplicate marker. -/
theorem C9_emission_output_shape_witness :
    run_emit (JSVVSimulator.fresh demoIdentity 0) (strBytes "SIREN")
        [strBytes "STEADY_TONE"] none (some 1000)
      = (0, [bytesToString demoEmitResult.raw, payloadLine demoEmitResult.payload]
            ++ (if demoEmitResult.duplicate then [dupMarker] else [])) :=
  C9_emission_output_shape.1 (JSVVSimulator.fresh demoIdentity 0)
    (strBytes "SIREN") [strBytes "STEADY_TONE"] none (some 1000)
    demoEmitResult demoEmitSim (by decide)

/-- C10: the list subcommand prints each scenario name of the registry
exactly once, in ascending code-point lexicographic order, with exit code 0. -/
theorem C10_list_sorted_names :
    run_list.1 = 0
    ∧ run_list.2.Pairwise (fun a b => strBytes a < strBytes b)
    ∧ run_list.2.Perm (SCENARIOS.map Prod.fst)
    ∧ (SCENARIOS.map Prod.fst).Nodup :=
  ⟨rfl, by decide, by decide, by decide⟩

end JSVV
